import Mathlib

/-!
Verification of the statistical-aggregation engine of
`analyze-results.py` (Azure micro-segmentation research repository).

Shallow embedding conventions:
* Python floats are modelled as real numbers (`ℝ`); a possibly-NaN float
  is `Option ℝ`, with `none` standing for NaN (the code's undefined
  marker) and `some x` for a finite value `x`.
* `np.isnan` filtering becomes `List.filterMap id` on `List (Option ℝ)`.
* The external collaborators `scipy.stats.t.ppf` and
  `statsmodels TTestIndPower().solve_power` are not code of this
  repository; they are passed in as explicit function parameters, with
  their documented analytic properties taken as hypotheses where a
  theorem needs them.
-/

namespace AnalyzeResults

/-- Drop the NaN entries and keep finite values: `data[~np.isnan(data)]`. -/
def filterFinite (data : List (Option ℝ)) : List ℝ :=
  data.filterMap id

/-- Arithmetic mean of a list of reals: `np.mean(data)`. -/
noncomputable def listMean (l : List ℝ) : ℝ :=
  l.sum / l.length

/-- Bessel-corrected sample variance (divide by `n - 1`):
`np.std(data, ddof=1) ** 2`. -/
noncomputable def sampleVariance (l : List ℝ) : ℝ :=
  (l.map (fun x => (x - listMean l) ^ 2)).sum / ((l.length : ℝ) - 1)

/-- Bessel-corrected sample standard deviation: `np.std(data, ddof=1)`. -/
noncomputable def sampleStd (l : List ℝ) : ℝ :=
  Real.sqrt (sampleVariance l)

/-- Result record of `calculate_confidence_interval`:
`{'mean': …, 'lower': …, 'upper': …, 'margin': …, 'std': …, 'n': …}`,
with `none` as the NaN value. -/
structure CIResult where
  mean : Option ℝ
  lower : Option ℝ
  upper : Option ℝ
  margin : Option ℝ
  std : Option ℝ
  n : ℕ

/-- Embedding of `calculate_confidence_interval(data, confidence=0.95)`,
`analyze-results.py` lines 47–81.  `tppf q df` stands for the external
`scipy.stats.t.ppf(q, df)` quantile function. -/
noncomputable def calculate_confidence_interval
    (tppf : ℝ → ℕ → ℝ) (data : List (Option ℝ)) (confidence : ℝ := 0.95) :
    CIResult :=
  let d := filterFinite data
  if d.length = 0 then
    { mean := none, lower := none, upper := none, margin := none,
      std := none, n := 0 }
  else if d.length = 1 then
    { mean := some d.headI, lower := none, upper := none, margin := none,
      std := some 0, n := 1 }
  else
    let mean := listMean d
    let std := sampleStd d
    let n := d.length
    let t_value := tppf ((1 + confidence) / 2) (n - 1)
    let margin := t_value * (std / Real.sqrt n)
    { mean := some mean, lower := some (mean - margin),
      upper := some (mean + margin), margin := some margin,
      std := some std, n := n }

/-- The pooled standard deviation computed inside `calculate_cohens_d`
(line 111): `np.sqrt(((n1-1)*std1**2 + (n2-1)*std2**2) / (n1+n2-2))`. -/
noncomputable def pooledStd (g1 g2 : List ℝ) : ℝ :=
  Real.sqrt ((((g1.length : ℝ) - 1) * sampleStd g1 ^ 2 +
      ((g2.length : ℝ) - 1) * sampleStd g2 ^ 2) /
    ((g1.length : ℝ) + (g2.length : ℝ) - 2))

/-- Embedding of `calculate_cohens_d(group1, group2)`, lines 84–116; returns the
NaN marker (`none`) when either NaN-filtered group has fewer than two
entries or the pooled standard deviation is zero. -/
noncomputable def calculate_cohens_d (group1 group2 : List (Option ℝ)) :
    Option ℝ :=
  let g1 := filterFinite group1
  let g2 := filterFinite group2
  if g1.length < 2 ∨ g2.length < 2 then none
  else if pooledStd g1 g2 = 0 then none
  else some ((listMean g1 - listMean g2) / pooledStd g1 g2)

/-- Embedding of `interpret_effect_size(d)`, lines 119–131 (`none` = NaN input). -/
noncomputable def interpret_effect_size (d : Option ℝ) : String :=
  match d with
  | none => "Undefined"
  | some d =>
    if |d| < 0.2 then "Negligible"
    else if |d| < 0.5 then "Small"
    else if |d| < 0.8 then "Medium"
    else "Large"

/-- Embedding of `calculate_performance_overhead(baseline_value,
config_value, metric_type)`, lines 134–162; `none` models NaN on input
and on output. -/
noncomputable def calculate_performance_overhead
    (baseline_value config_value : Option ℝ)
    (metric_type : String := "latency") : Option ℝ :=
  match baseline_value, config_value with
  | some b, some c =>
    if b = 0 then none
    else if c = 0 ∨ (metric_type = "throughput" ∧ c < 1) then none
    else if metric_type = "latency" then some ((c - b) / b * 100)
    else if metric_type = "throughput" then some ((b - c) / b * 100)
    else some ((c - b) / b * 100)
  | _, _ => none

/-- Embedding of `calculate_statistical_power(effect_size, n, alpha=0.05)`,
lines 165–190.  `solver e n a` stands for the external
`TTestIndPower().solve_power(effect_size=e, nobs1=n, alpha=a,
alternative='two-sided')`; a raised exception (caught by the `try`/
`except` that returns NaN) is modelled as `solver` returning `none`. -/
def calculate_statistical_power (solver : ℝ → ℕ → ℝ → Option ℝ)
    (effect_size : Option ℝ) (n : ℕ) (alpha : ℝ := 0.05) : Option ℝ :=
  match effect_size with
  | none => none
  | some d => if n < 2 then none else solver |d| n alpha

/-- Embedding of `interpret_power(power)`, lines 193–204 (`none` = NaN input). -/
noncomputable def interpret_power (power : Option ℝ) : String :=
  match power with
  | none => "Undefined"
  | some p =>
    if p < 0.50 then "Low"
    else if p < 0.80 then "Moderate"
    else if p < 0.95 then "High"
    else "Excellent"

/-- The statistical fields of one row of
`create_enhanced_comparison_table` (lines 839–865).  Python's plain
floats `cohens_d = 0` and `power = 1.0` in the baseline branch are
`some 0` / `some 1` here (they are not NaN). -/
structure RowStats where
  delta_success : ℝ
  delta_success_pct : ℝ
  delta_latency : ℝ
  delta_latency_pct : ℝ
  delta_cpu : ℝ
  cohens_d : Option ℝ
  effect : String
  power : Option ℝ
  power_interp : String

/-- The per-configuration statistical computation of
`create_enhanced_comparison_table` (lines 839–865): the `if config !=
'baseline'` branch computes deltas, percentage deltas, Cohen's d from
the raw per-iteration values, and power; the `else` branch hard-codes
the degenerate baseline row.  `solver` is the external power solver
threaded through to `calculate_statistical_power`. -/
noncomputable def rowStats (solver : ℝ → ℕ → ℝ → Option ℝ)
    (config : String)
    (success_mean baseline_success latency_mean baseline_latency
      cpu_mean baseline_cpu : ℝ)
    (success_iters baseline_success_iters : List (Option ℝ))
    (n : ℕ) : RowStats :=
  if config ≠ "baseline" then
    let delta_success := success_mean - baseline_success
    let delta_success_pct :=
      if baseline_success ≠ 0 then delta_success / baseline_success * 100
      else 0
    let delta_latency := latency_mean - baseline_latency
    let delta_latency_pct :=
      if baseline_latency ≠ 0 then delta_latency / baseline_latency * 100
      else 0
    let delta_cpu := cpu_mean - baseline_cpu
    let cohens_d := calculate_cohens_d baseline_success_iters success_iters
    let effect := interpret_effect_size cohens_d
    let power := calculate_statistical_power solver cohens_d n
    let power_interp := interpret_power power
    { delta_success := delta_success, delta_success_pct := delta_success_pct,
      delta_latency := delta_latency, delta_latency_pct := delta_latency_pct,
      delta_cpu := delta_cpu, cohens_d := cohens_d, effect := effect,
      power := power, power_interp := power_interp }
  else
    { delta_success := 0, delta_success_pct := 0,
      delta_latency := 0, delta_latency_pct := 0, delta_cpu := 0,
      cohens_d := some 0, effect := "Baseline",
      power := some 1, power_interp := "Baseline" }

/-! Helper lemmas shared by several theorems. -/

theorem sampleVariance_nonneg (l : List ℝ) : 0 ≤ sampleVariance l := by
  unfold sampleVariance
  rcases l with _ | ⟨x, xs⟩
  · simp
  · apply div_nonneg
    · apply List.sum_nonneg
      intro y hy
      simp only [List.mem_map] at hy
      obtain ⟨z, _, rfl⟩ := hy
      positivity
    · have : (0 : ℝ) ≤ (xs.length : ℝ) := Nat.cast_nonneg _
      simp only [List.length_cons]
      push_cast
      linarith

theorem sampleStd_nonneg (l : List ℝ) : 0 ≤ sampleStd l :=
  Real.sqrt_nonneg _

theorem sampleStd_sq (l : List ℝ) : sampleStd l ^ 2 = sampleVariance l :=
  Real.sq_sqrt (sampleVariance_nonneg l)

theorem pooledStd_comm (g1 g2 : List ℝ) :
    pooledStd g1 g2 = pooledStd g2 g1 := by
  unfold pooledStd
  congr 1
  ring

/-! Theorems for the claims. -/

/-- C5: for every input list, after NaN filtering, effective count 0
gives the all-undefined record with `n = 0`, and effective count 1 gives
mean = the single remaining value, `std = 0`, undefined
lower/upper/margin, and `n = 1` (the function is total, so no exception
is possible). -/
theorem ci_degenerate_shape (tppf : ℝ → ℕ → ℝ) (data : List (Option ℝ))
    (confidence : ℝ) :
    ((filterFinite data).length = 0 →
      calculate_confidence_interval tppf data confidence =
        { mean := none, lower := none, upper := none, margin := none,
          std := none, n := 0 }) ∧
    ((filterFinite data).length = 1 →
      calculate_confidence_interval tppf data confidence =
        { mean := some (filterFinite data).headI, lower := none,
          upper := none, margin := none, std := some 0, n := 1 }) := by
  constructor
  · intro h
    simp [calculate_confidence_interval, h]
  · intro h
    simp [calculate_confidence_interval, h]

/-- Witness for C5: evaluated on `[NaN]` (count 0) and `[5, NaN]`
(count 1). -/
theorem ci_degenerate_shape_witness :
    calculate_confidence_interval (fun _ _ => 2) [none] 0.95 =
      { mean := none, lower := none, upper := none, margin := none,
        std := none, n := 0 } ∧
    calculate_confidence_interval (fun _ _ => 2) [some 5, none] 0.95 =
      { mean := some 5, lower := none, upper := none, margin := none,
        std := some 0, n := 1 } := by
  constructor
  · exact (ci_degenerate_shape (fun _ _ => 2) [none] 0.95).1 (by
      simp [filterFinite])
  · have h := (ci_degenerate_shape (fun _ _ => 2) [some 5, none] 0.95).2 (by
      simp [filterFinite])
    simpa [filterFinite] using h

/-- C3: the overhead calculation returns the undefined marker exactly
when the baseline is NaN, the configuration value is NaN, the baseline
is 0, the configuration value is 0, or — for the higher-is-better
(`"throughput"`) polarity only — the configuration value is below the
validity floor 1; in particular baseline 100 with configuration 0 under
`"throughput"` gives undefined, not `+100%`. -/
theorem overhead_undefined_characterization (b c : Option ℝ) (mt : String) :
    (calculate_performance_overhead b c mt = none ↔
      b = none ∨ c = none ∨ b = some 0 ∨ c = some 0 ∨
        (mt = "throughput" ∧ ∃ cv, c = some cv ∧ cv < 1)) ∧
    calculate_performance_overhead (some 100) (some 0) "throughput" =
      none := by
  constructor
  · cases b with
    | none => simp [calculate_performance_overhead]
    | some bv =>
      cases c with
      | none => simp [calculate_performance_overhead]
      | some cv =>
        simp only [calculate_performance_overhead]
        split_ifs with h1 h2 h3 h4 <;> simp_all
  · norm_num [calculate_performance_overhead]

/-- Counterexample to C4 as stated: at baseline 100 and configuration
value 1/2 the `"latency"` polarity yields the defined value −99.5 while
the `"throughput"` polarity yields the undefined marker (the validity
floor fires), so the two polarities do not give opposite-sign,
equal-magnitude results for every pair. -/
theorem overhead_sign_flip_cex :
    calculate_performance_overhead (some 100) (some (1 / 2)) "latency" =
      some (-(199 / 2)) ∧
    calculate_performance_overhead (some 100) (some (1 / 2)) "throughput" =
      none := by
  constructor
  · simp only [calculate_performance_overhead]
    rw [if_neg (by norm_num : ¬(100 : ℝ) = 0),
      if_neg (show ¬((1 / 2 : ℝ) = 0 ∨
          ("latency" = "throughput" ∧ (1 / 2 : ℝ) < 1)) by
        push_neg
        exact ⟨by norm_num, fun h => absurd h (by decide)⟩)]
    norm_num
  · norm_num [calculate_performance_overhead]

/-- C4 amended: whenever the baseline is nonzero and the configuration
value is at least the throughput validity floor 1, the
`"throughput"`-polarity overhead is the negation of the
`"latency"`-polarity overhead (opposite sign, equal magnitude). -/
theorem overhead_sign_flip_amended (b c : ℝ) (hb : b ≠ 0) (hc : 1 ≤ c) :
    calculate_performance_overhead (some b) (some c) "throughput" =
      (calculate_performance_overhead (some b) (some c) "latency").map
        (fun x => -x) := by
  have hc0 : c ≠ 0 := by intro h; rw [h] at hc; norm_num at hc
  simp only [calculate_performance_overhead]
  rw [if_neg hb, if_neg hb,
    if_neg (show ¬(c = 0 ∨ True ∧ c < 1) by
      push_neg
      exact ⟨hc0, fun _ => hc⟩),
    if_neg (show ¬(c = 0 ∨ "latency" = "throughput" ∧ c < 1) by
      push_neg
      exact ⟨hc0, fun h => absurd h (by decide)⟩),
    if_neg (show ¬("throughput" = "latency") by decide),
    if_pos trivial, if_pos trivial]
  simp only [Option.map_some']
  congr 1
  ring

/-- Witness for C4's amended theorem at baseline 100, configuration 2. -/
theorem overhead_sign_flip_amended_witness :
    calculate_performance_overhead (some 100) (some 2) "throughput" =
      (calculate_performance_overhead (some 100) (some 2) "latency").map
        (fun x => -x) :=
  overhead_sign_flip_amended 100 2 (by norm_num) (by norm_num)

/-- Counterexample to C1 as stated: for the non-baseline configuration
`"config1"` with baseline mean 0 and configuration mean 5, the code's
delta% field is the plain number 0, not an undefined marker (the field
is an unconditional float, so no undefined marker is even possible
there). -/
theorem delta_pct_zero_cex :
    (rowStats (fun _ _ _ => none) "config1" 5 0 0 0 0 0 [] [] 0
      ).delta_success_pct = 0 := by
  rw [rowStats, if_pos (show "config1" ≠ "baseline" by decide)]
  norm_num

/-- C1 amended: for every non-baseline configuration row, delta% is
`(C.mean − baseline.mean) / baseline.mean × 100` when the baseline mean
is nonzero, but when the baseline mean is 0 the delta% field is the
number 0 (not an undefined marker), for both the success-rate and the
latency metric. -/
theorem delta_pct_amended (solver : ℝ → ℕ → ℝ → Option ℝ)
    (config : String) (sm bs lm bl cm bc : ℝ)
    (si bsi : List (Option ℝ)) (n : ℕ)
    (hconfig : config ≠ "baseline") :
    ((rowStats solver config sm bs lm bl cm bc si bsi n).delta_success_pct =
      if bs ≠ 0 then (sm - bs) / bs * 100 else 0) ∧
    ((rowStats solver config sm bs lm bl cm bc si bsi n).delta_latency_pct =
      if bl ≠ 0 then (lm - bl) / bl * 100 else 0) := by
  rw [rowStats, if_pos hconfig]
  exact ⟨rfl, rfl⟩

/-- Witness for C1's amended theorem: configuration `"config1"`, success
means 5 vs baseline 4, latency means 3 vs baseline 0. -/
theorem delta_pct_amended_witness :
    (rowStats (fun _ _ _ => none) "config1" 5 4 3 0 0 0 [] [] 0
      ).delta_success_pct = (5 - 4) / 4 * 100 ∧
    (rowStats (fun _ _ _ => none) "config1" 5 4 3 0 0 0 [] [] 0
      ).delta_latency_pct = 0 := by
  have h := delta_pct_amended (fun _ _ _ => none) "config1" 5 4 3 0 0 0 [] [] 0
    (by decide)
  constructor
  · rw [h.1, if_pos (by norm_num : (4 : ℝ) ≠ 0)]
  · rw [h.2, if_neg (by norm_num : ¬(0 : ℝ) ≠ 0)]

/-- C2: the baseline configuration's own row is the degenerate identity:
all five delta fields are 0 and the effect-size field carries the
`"Baseline"` self marker, which is not a value the effect-size
classifier can produce for any computed effect size. -/
theorem baseline_row_identity (solver : ℝ → ℕ → ℝ → Option ℝ)
    (sm bs lm bl cm bc : ℝ) (si bsi : List (Option ℝ)) (n : ℕ) :
    (rowStats solver "baseline" sm bs lm bl cm bc si bsi n).delta_success = 0 ∧
    (rowStats solver "baseline" sm bs lm bl cm bc si bsi n).delta_success_pct = 0 ∧
    (rowStats solver "baseline" sm bs lm bl cm bc si bsi n).delta_latency = 0 ∧
    (rowStats solver "baseline" sm bs lm bl cm bc si bsi n).delta_latency_pct = 0 ∧
    (rowStats solver "baseline" sm bs lm bl cm bc si bsi n).delta_cpu = 0 ∧
    (rowStats solver "baseline" sm bs lm bl cm bc si bsi n).effect = "Baseline" ∧
    (∀ d : Option ℝ, interpret_effect_size d ≠ "Baseline") := by
  rw [rowStats, if_neg (show ¬("baseline" ≠ "baseline") by decide)]
  refine ⟨rfl, rfl, rfl, rfl, rfl, rfl, ?_⟩
  intro d
  match d with
  | none => decide
  | some d =>
    simp only [interpret_effect_size]
    split_ifs <;> decide

/-- C6: for every input with at least two finite entries, the interval
computed at the default 0.95 level (for any positive t-critical value,
as `scipy.stats.t.ppf(0.975, df)` is) satisfies `lower ≤ mean ≤ upper`,
and the margin is strictly positive whenever the Bessel-corrected sample
standard deviation is. -/
theorem ci_contains_mean (tppf : ℝ → ℕ → ℝ) (data : List (Option ℝ))
    (h2 : 2 ≤ (filterFinite data).length)
    (ht : 0 < tppf ((1 + 0.95) / 2) ((filterFinite data).length - 1)) :
    ∃ m lo hi mg s,
      calculate_confidence_interval tppf data 0.95 =
        { mean := some m, lower := some lo, upper := some hi,
          margin := some mg, std := some s,
          n := (filterFinite data).length } ∧
      lo ≤ m ∧ m ≤ hi ∧ (0 < s → 0 < mg) := by
  set d := filterFinite data with hd
  have h0 : ¬(d.length = 0) := by omega
  have h1 : ¬(d.length = 1) := by omega
  set mg := tppf ((1 + 0.95) / 2) (d.length - 1) *
    (sampleStd d / Real.sqrt d.length) with hmg
  have hmg0 : 0 ≤ mg :=
    mul_nonneg ht.le (div_nonneg (sampleStd_nonneg d) (Real.sqrt_nonneg _))
  refine ⟨listMean d, listMean d - mg, listMean d + mg, mg, sampleStd d,
    ?_, by linarith, by linarith, ?_⟩
  · simp only [calculate_confidence_interval, ← hd, if_neg h0, if_neg h1]
  · intro hs
    apply mul_pos ht
    apply div_pos hs
    apply Real.sqrt_pos.mpr
    have hlen : 0 < d.length := by omega
    exact_mod_cast hlen

/-- Witness for C6: the sample `[0, 1]` with t-critical value 2. -/
theorem ci_contains_mean_witness :
    ∃ m lo hi mg s,
      calculate_confidence_interval (fun _ _ => 2) [some 0, some 1] 0.95 =
        { mean := some m, lower := some lo, upper := some hi,
          margin := some mg, std := some s,
          n := (filterFinite [some 0, some 1]).length } ∧
      lo ≤ m ∧ m ≤ hi ∧ (0 < s → 0 < mg) := by
  have e : filterFinite [some (0 : ℝ), some 1] = [0, 1] := rfl
  exact ci_contains_mean (fun _ _ => 2) [some 0, some 1]
    (by rw [e]; norm_num) (by norm_num)

/-- C7: the effect-size computation yields the undefined marker exactly
when either NaN-filtered group has fewer than two entries or the pooled
standard deviation is exactly zero, and otherwise yields
`(mean₁ − mean₂) / pooledStd`; in particular two constant groups of
equal length (five 10s vs five 12s) give the undefined marker. -/
theorem cohens_d_characterization (group1 group2 : List (Option ℝ)) :
    (calculate_cohens_d group1 group2 = none ↔
      (filterFinite group1).length < 2 ∨ (filterFinite group2).length < 2 ∨
        pooledStd (filterFinite group1) (filterFinite group2) = 0) ∧
    (2 ≤ (filterFinite group1).length → 2 ≤ (filterFinite group2).length →
      pooledStd (filterFinite group1) (filterFinite group2) ≠ 0 →
      calculate_cohens_d group1 group2 =
        some ((listMean (filterFinite group1) -
            listMean (filterFinite group2)) /
          pooledStd (filterFinite group1) (filterFinite group2))) ∧
    calculate_cohens_d
      [some 10, some 10, some 10, some 10, some 10]
      [some 12, some 12, some 12, some 12, some 12] = none := by
  refine ⟨?_, ?_, ?_⟩
  · simp only [calculate_cohens_d]
    split_ifs with hl hp <;> simp_all
    tauto
  · intro ha hb hp
    simp only [calculate_cohens_d]
    rw [if_neg (by omega :
        ¬((filterFinite group1).length < 2 ∨
          (filterFinite group2).length < 2)), if_neg hp]
  · have e1 : filterFinite
        [some (10 : ℝ), some 10, some 10, some 10, some 10] =
        [10, 10, 10, 10, 10] := rfl
    have e2 : filterFinite
        [some (12 : ℝ), some 12, some 12, some 12, some 12] =
        [12, 12, 12, 12, 12] := rfl
    have hv1 : sampleVariance [(10 : ℝ), 10, 10, 10, 10] = 0 := by
      norm_num [sampleVariance, listMean]
    have hv2 : sampleVariance [(12 : ℝ), 12, 12, 12, 12] = 0 := by
      norm_num [sampleVariance, listMean]
    have hp : pooledStd [(10 : ℝ), 10, 10, 10, 10]
        [(12 : ℝ), 12, 12, 12, 12] = 0 := by
      unfold pooledStd
      rw [sampleStd_sq, sampleStd_sq, hv1, hv2]
      norm_num
    simp only [calculate_cohens_d, e1, e2]
    rw [if_neg (by norm_num), if_pos hp]

/-- Witness for C7: groups `[0, 2]` and `[1, 3]` have a nonzero pooled
standard deviation, so the defined-value branch applies. -/
theorem cohens_d_characterization_witness :
    calculate_cohens_d [some 0, some 2] [some 1, some 3] =
      some ((listMean (filterFinite [some 0, some 2]) -
          listMean (filterFinite [some 1, some 3])) /
        pooledStd (filterFinite [some 0, some 2])
          (filterFinite [some 1, some 3])) := by
  have e1 : filterFinite [some (0 : ℝ), some 2] = [0, 2] := rfl
  have e2 : filterFinite [some (1 : ℝ), some 3] = [1, 3] := rfl
  have hp : pooledStd (filterFinite [some (0 : ℝ), some 2])
      (filterFinite [some (1 : ℝ), some 3]) ≠ 0 := by
    rw [e1, e2, pooledStd, sampleStd_sq, sampleStd_sq, Real.sqrt_ne_zero']
    norm_num [sampleVariance, listMean]
  exact (cohens_d_characterization _ _).2.1
    (by rw [e1]; norm_num) (by rw [e2]; norm_num) hp

/-- C8: the effect-size computation is antisymmetric: swapping the two
groups negates the result, and an undefined result on one side is
undefined on the other. -/
theorem cohens_d_antisymm (a b : List (Option ℝ)) :
    calculate_cohens_d a b = (calculate_cohens_d b a).map (fun x => -x) := by
  simp only [calculate_cohens_d]
  rw [pooledStd_comm (filterFinite b) (filterFinite a)]
  by_cases hl : (filterFinite a).length < 2 ∨ (filterFinite b).length < 2
  · rw [if_pos hl, if_pos (Or.symm hl)]
    rfl
  · rw [if_neg hl, if_neg (fun h => hl (Or.symm h))]
    by_cases hp : pooledStd (filterFinite a) (filterFinite b) = 0
    · rw [if_pos hp, if_pos hp]
      rfl
    · rw [if_neg hp, if_neg hp]
      simp only [Option.map_some']
      congr 1
      ring

/-- C9: assuming the external solver (statsmodels' analytic power
computation) always yields a probability in `[0, 1]`, the power
computation returns the undefined marker exactly when the effect size is
undefined or `n < 2`, otherwise a probability in `[0, 1]`; at the
boundary `n = 2` with a nonzero defined effect size it returns a defined
probability. -/
theorem power_characterization (solver : ℝ → ℕ → ℝ → Option ℝ)
    (hsolver : ∀ e n a, ∃ p, solver e n a = some p ∧ 0 ≤ p ∧ p ≤ 1)
    (effect_size : Option ℝ) (n : ℕ) (alpha : ℝ) :
    (calculate_statistical_power solver effect_size n alpha = none ↔
      effect_size = none ∨ n < 2) ∧
    (∀ p, calculate_statistical_power solver effect_size n alpha = some p →
      0 ≤ p ∧ p ≤ 1) ∧
    (∀ d : ℝ, effect_size = some d → d ≠ 0 → n = 2 →
      ∃ p, calculate_statistical_power solver effect_size n alpha =
        some p) := by
  refine ⟨?_, ?_, ?_⟩
  · cases effect_size with
    | none => simp [calculate_statistical_power]
    | some d =>
      simp only [calculate_statistical_power]
      by_cases hn : n < 2
      · simp [hn]
      · obtain ⟨p, hp, _⟩ := hsolver |d| n alpha
        simp [hn, hp]
  · intro p hp
    cases effect_size with
    | none => simp [calculate_statistical_power] at hp
    | some d =>
      simp only [calculate_statistical_power] at hp
      by_cases hn : n < 2
      · rw [if_pos hn] at hp
        exact absurd hp (by simp)
      · rw [if_neg hn] at hp
        obtain ⟨q, hq, hq0, hq1⟩ := hsolver |d| n alpha
        rw [hq] at hp
        obtain rfl : q = p := Option.some.inj hp
        exact ⟨hq0, hq1⟩
  · intro d hd hd0 hn
    subst hd
    subst hn
    obtain ⟨p, hp, _⟩ := hsolver |d| 2 alpha
    refine ⟨p, ?_⟩
    simp [calculate_statistical_power, hp]

/-- Witness for C9: a solver constantly returning 1/2, effect size 1,
`n = 2`, significance 0.05. -/
theorem power_characterization_witness :
    ∃ p, calculate_statistical_power (fun _ _ _ => some (1 / 2)) (some 1)
      2 0.05 = some p :=
  (power_characterization (fun _ _ _ => some (1 / 2))
    (fun _ _ _ => ⟨1 / 2, rfl, by norm_num, by norm_num⟩)
    (some 1) 2 0.05).2.2 1 rfl one_ne_zero rfl

/-- C10: for every group with at least two finite entries and nonzero
Bessel-corrected sample variance, its effect size against itself is the
defined value 0, not the undefined marker. -/
theorem cohens_d_self_zero (a : List (Option ℝ))
    (h2 : 2 ≤ (filterFinite a).length)
    (hv : sampleVariance (filterFinite a) ≠ 0) :
    calculate_cohens_d a a = some 0 := by
  set g := filterFinite a with hg
  have hvpos : 0 < sampleVariance g :=
    lt_of_le_of_ne (sampleVariance_nonneg g) (Ne.symm hv)
  have hs : 0 < sampleStd g := Real.sqrt_pos.mpr hvpos
  have hlen : (2 : ℝ) ≤ (g.length : ℝ) := by exact_mod_cast h2
  have hn : ((g.length : ℝ) + (g.length : ℝ) - 2) ≠ 0 := by linarith
  have hp : pooledStd g g = sampleStd g := by
    unfold pooledStd
    rw [show (((g.length : ℝ) - 1) * sampleStd g ^ 2 +
        ((g.length : ℝ) - 1) * sampleStd g ^ 2) /
        ((g.length : ℝ) + (g.length : ℝ) - 2) = sampleStd g ^ 2 by
      field_simp
      ring]
    exact Real.sqrt_sq hs.le
  simp only [calculate_cohens_d, ← hg]
  rw [if_neg (by omega : ¬(g.length < 2 ∨ g.length < 2)),
    if_neg (by rw [hp]; exact hs.ne')]
  simp

/-- Witness for C10: the group `[0, 1]` has variance 1/2 and effect size
0 against itself. -/
theorem cohens_d_self_zero_witness :
    calculate_cohens_d [some 0, some 1] [some 0, some 1] = some 0 := by
  have e : filterFinite [some (0 : ℝ), some 1] = [0, 1] := rfl
  exact cohens_d_self_zero [some 0, some 1]
    (by rw [e]; norm_num)
    (by rw [e]; norm_num [sampleVariance, listMean])

end AnalyzeResults
